import Mathlib

/-!
Verification of the MAVLink telemetry and autonomous mission-control subsystem
of the UAV ground-control client.

The embedding models `MAVLinkClient`
(src/uav_project/src/uav_system/communication/mavlink/mavlink_client.py).
Incoming link traffic is modelled as a finite list of decoded MAVLink
messages (the order in which `recv_match` yields them); a `recv_match`
call with a type filter consumes every message up to and including the
first one of the requested type, and a timeout corresponds to no further
matching message in the trace (prompt-delivery abstraction: every message
the link will ever deliver is assumed to arrive within the polling
windows, so a wait that times out has scanned and consumed the whole
remaining trace).  Outgoing traffic is recorded as a list of `Action`s.
Python floats are modelled as rationals; transport sends are assumed to
succeed (a raised send exception is caught in the source and converted to
an early `False` return; those paths are noted where relevant).
-/

namespace UAVClient

/-- Decoded MAVLink messages consumed by the client, with the payload
fields the handlers read.  `heartbeat` carries `base_mode` plus the
library-decoded mode string (`mavutil.mode_string_v10`) and the
`MAV_STATE` enum name; the MAVLink codec itself is out of scope. -/
inductive MavMsg where
  | heartbeat (baseMode : Nat) (modeName : String) (statusName : String)
  | missionAck (ackType : Nat)
  | missionRequest (seq : Nat)
  | globalPositionInt (lat lon alt hdg : Int)
  | attitude (roll pitch yaw : ℚ)
  | vfrHud (airspeed groundspeed : ℚ) (throttle : Nat)
  | sysStatus (batteryRemaining : Int) (voltageBattery : Nat)
  | gpsRawInt (fixType satellites : Nat)
deriving DecidableEq

/-- MAVLink enum value `MAV_MISSION_ACCEPTED`. -/
def MAV_MISSION_ACCEPTED : Nat := 0
/-- MAVLink flag `MAV_MODE_FLAG_SAFETY_ARMED`. -/
def MAV_MODE_FLAG_SAFETY_ARMED : Nat := 128
/-- MAVLink command id `MAV_CMD_COMPONENT_ARM_DISARM`. -/
def MAV_CMD_COMPONENT_ARM_DISARM : Nat := 400
/-- MAVLink command id `MAV_CMD_NAV_TAKEOFF`. -/
def MAV_CMD_NAV_TAKEOFF : Nat := 22
/-- MAVLink command id `MAV_CMD_NAV_WAYPOINT`. -/
def MAV_CMD_NAV_WAYPOINT : Nat := 16
/-- MAVLink command id `MAV_CMD_NAV_LAND`. -/
def MAV_CMD_NAV_LAND : Nat := 21
/-- MAVLink frame `MAV_FRAME_GLOBAL_RELATIVE_ALT`. -/
def MAV_FRAME_GLOBAL_RELATIVE_ALT : Nat := 3

/-- Python `int()` applied to a rational: truncation toward zero. -/
def pyInt (q : ℚ) : Int := if 0 ≤ q then ⌊q⌋ else ⌈q⌉

/-- Messages the client sends over the link (the observable effect of a
run), in the order they are sent. -/
inductive Action where
  | commandLong (cmd : Nat) (p1 p2 p3 p4 p5 p6 p7 : ℚ)
  | setModeReq (modeId : Nat)
  | missionClearAll
  | missionCount (count : Nat)
  | missionItemInt (seq frame cmd current autocont : Nat)
      (p1 p2 p3 p4 : ℚ) (lat lon : Int) (alt : ℚ)
  | startTelemetryThread
  | closeTransport
deriving DecidableEq

/-- Is an action one of the mission-upload messages
(MISSION_CLEAR_ALL, MISSION_COUNT, MISSION_ITEM_INT)? -/
def isMissionAction : Action → Bool
  | .missionClearAll => true
  | .missionCount _ => true
  | .missionItemInt _ _ _ _ _ _ _ _ _ _ _ _ => true
  | _ => false

/-! ## Telemetry store (`telemetry_data` dict plus the `last_heartbeat`
client attribute) -/

/-- The client's last-known vehicle state: the `telemetry_data` dict of
`reset_telemetry_data` together with the `self.last_heartbeat` attribute
(the live heartbeat timestamp used by `get_connection_status`; the dict
also carries its own `last_heartbeat` key, kept here as
`telemetryLastHeartbeat`, which no handler ever writes). -/
structure Telemetry where
  lat : ℚ
  lon : ℚ
  altitude : ℚ
  roll : ℚ
  pitch : ℚ
  yaw : ℚ
  airspeed : ℚ
  groundspeed : ℚ
  heading : ℚ
  throttle : ℚ
  batteryLevel : ℚ
  batteryVoltage : ℚ
  armed : Bool
  armable : Bool
  flightMode : String
  gpsFix : Nat
  satellites : Nat
  telemetryLastHeartbeat : Nat
  systemStatus : String
  lastHeartbeat : Nat
deriving DecidableEq

/-- `reset_telemetry_data`: the documented defaults. -/
def resetTelemetry : Telemetry :=
  { lat := 0, lon := 0, altitude := 0, roll := 0, pitch := 0, yaw := 0
    airspeed := 0, groundspeed := 0, heading := 0, throttle := 0
    batteryLevel := 0, batteryVoltage := 0, armed := false, armable := false
    flightMode := "UNKNOWN", gpsFix := 0, satellites := 0
    telemetryLastHeartbeat := 0, systemStatus := "UNKNOWN", lastHeartbeat := 0 }

/-- `_handle_heartbeat`: armed flag from `base_mode`, decoded mode
string, `MAV_STATE` name. -/
def handleHeartbeat (t : Telemetry) (baseMode : Nat)
    (modeName statusName : String) : Telemetry :=
  { t with armed := (baseMode &&& MAV_MODE_FLAG_SAFETY_ARMED) != 0
           flightMode := modeName
           systemStatus := statusName }

/-- `_handle_sys_status`: battery level and voltage (mV to V). -/
def handleSysStatus (t : Telemetry) (batteryRemaining : Int)
    (voltageBattery : Nat) : Telemetry :=
  { t with batteryLevel := (batteryRemaining : ℚ)
           batteryVoltage := (voltageBattery : ℚ) / 1000 }

/-- `_handle_gps_raw`: fix type and visible satellites. -/
def handleGpsRaw (t : Telemetry) (fixType satellites : Nat) : Telemetry :=
  { t with gpsFix := fixType, satellites := satellites }

/-- `_handle_attitude`: roll, pitch, yaw (radians). -/
def handleAttitude (t : Telemetry) (roll pitch yaw : ℚ) : Telemetry :=
  { t with roll := roll, pitch := pitch, yaw := yaw }

/-- `_handle_global_position`: scaled position and heading. -/
def handleGlobalPosition (t : Telemetry) (lat lon alt hdg : Int) : Telemetry :=
  { t with lat := (lat : ℚ) / 10000000
           lon := (lon : ℚ) / 10000000
           altitude := (alt : ℚ) / 1000
           heading := (hdg : ℚ) / 100 }

/-- `_handle_vfr_hud`: airspeed, groundspeed, throttle. -/
def handleVfrHud (t : Telemetry) (airspeed groundspeed : ℚ)
    (throttle : Nat) : Telemetry :=
  { t with airspeed := airspeed, groundspeed := groundspeed
           throttle := (throttle : ℚ) }

/-- `_process_message` at time `now`: a HEARTBEAT first refreshes
`self.last_heartbeat` and runs `_handle_heartbeat`, then the dispatch
table runs the registered handler (for HEARTBEAT that is
`_handle_heartbeat` a second time, with the same effect); every other
message type runs exactly its registered handler. -/
def processMessage (now : Nat) (t : Telemetry) : MavMsg → Telemetry
  | .heartbeat bm mn sn =>
      handleHeartbeat (handleHeartbeat { t with lastHeartbeat := now } bm mn sn) bm mn sn
  | .missionAck _ => t
  | .missionRequest _ => t
  | .globalPositionInt la lo al hd => handleGlobalPosition t la lo al hd
  | .attitude r p y => handleAttitude t r p y
  | .vfrHud a g th => handleVfrHud t a g th
  | .sysStatus br vb => handleSysStatus t br vb
  | .gpsRawInt fx sa => handleGpsRaw t fx sa

/-! ## Link connection state -/

/-- The open transport: the `mavutil` connection object, carrying the
mode table (`mode_mapping()`) and the stream of messages it will yield. -/
structure Transport where
  modeTable : List (String × Nat)
  inbox : List MavMsg
deriving DecidableEq

/-- Client state: connection flags, cached ids, heartbeat timestamp and
the (optional) transport.  `connection = none` models `self.connection is
None`. -/
structure Client where
  connected : Bool
  running : Bool
  threadAlive : Bool
  lastHeartbeat : Nat
  systemId : Nat
  componentId : Nat
  connection : Option Transport
deriving DecidableEq

/-- Messages still to be delivered to a client (empty when no transport). -/
def clientInbox (s : Client) : List MavMsg :=
  match s.connection with
  | some conn => conn.inbox
  | none => []

/-! ## recv_match loops (each fuses the pymavlink type filter with the
surrounding while-loop: non-matching messages are consumed and dropped) -/

/-- The `set_mode` confirmation loop: poll HEARTBEATs (10 s budget) until
one reports `name`.  Result: match found, and the unconsumed trace. -/
def pollModeLoop (name : String) : List MavMsg → Bool × List MavMsg
  | [] => (false, [])
  | .heartbeat _ mn _ :: rest =>
      if mn = name then (true, rest) else pollModeLoop name rest
  | _ :: rest => pollModeLoop name rest

/-- The arm-confirmation loop of `autonomous_takeoff` step 3 (30 s
budget): poll HEARTBEATs until one has `MAV_MODE_FLAG_SAFETY_ARMED` set.
`none` is the timeout (whole trace consumed). -/
def armWait : List MavMsg → Option (List MavMsg)
  | [] => none
  | .heartbeat bm _ _ :: rest =>
      if (bm &&& MAV_MODE_FLAG_SAFETY_ARMED) != 0 then some rest else armWait rest
  | _ :: rest => armWait rest

/-- `get_location`: poll for a GLOBAL_POSITION_INT (5 s per try, 10
retries); returns the raw lat/lon payload.  `none` is exhaustion of the
retries. -/
def getLocationLoop : List MavMsg → Option ((Int × Int) × List MavMsg)
  | [] => none
  | .globalPositionInt la lo _ _ :: rest => some ((la, lo), rest)
  | _ :: rest => getLocationLoop rest

/-- `autonomous_takeoff` step 5: wait (10 s) for the MISSION_ACK of the
clear-all.  An accepted ack breaks out; any other ack status returns
`False` (first component `false`); the loop has no else-clause, so a
timeout falls through and the sequence continues with the (fully
consumed) trace. -/
def waitClearAck : List MavMsg → Bool × List MavMsg
  | [] => (true, [])
  | .missionAck k :: rest =>
      if k = MAV_MISSION_ACCEPTED then (true, rest) else (false, rest)
  | _ :: rest => waitClearAck rest

/-- `autonomous_takeoff` step 7: wait (10 s) for a MISSION_REQUEST with
`seq == 0`; requests for other indices keep the loop polling; timeout
(while-else) fails the sequence. -/
def waitReq0 : List MavMsg → Bool × List MavMsg
  | [] => (false, [])
  | .missionRequest k :: rest =>
      if k = 0 then (true, rest) else waitReq0 rest
  | _ :: rest => waitReq0 rest

/-- `autonomous_takeoff` step 9: wait (10 s) for the final MISSION_ACK;
an accepted ack breaks out, any other status returns `False`, and the
while-else makes a timeout return `False` as well. -/
def waitFinalAck : List MavMsg → Bool × List MavMsg
  | [] => (false, [])
  | .missionAck k :: rest =>
      if k = MAV_MISSION_ACCEPTED then (true, rest) else (false, rest)
  | _ :: rest => waitFinalAck rest

/-- `autonomous_land`: single `recv_match(type='MISSION_REQUEST',
timeout=5)` whose result is only logged — the sequence continues whether
or not a request arrived. -/
def recvRequestOnce : List MavMsg → List MavMsg
  | [] => []
  | .missionRequest _ :: rest => rest
  | _ :: rest => recvRequestOnce rest

/-- `autonomous_land`: single `recv_match(type='MISSION_ACK',
timeout=10)` whose result (and status!) is only logged — the sequence
continues regardless. -/
def recvAckOnce : List MavMsg → List MavMsg
  | [] => []
  | .missionAck _ :: rest => rest
  | _ :: rest => recvAckOnce rest

/-- `autonomous_takeoff` step 11: verify the AUTO switch by polling up to
10 HEARTBEATs (1 s each). -/
def verifyModeLoop (name : String) : Nat → List MavMsg → Bool × List MavMsg
  | _, [] => (false, [])
  | 0, l => (false, l)
  | n + 1, .heartbeat _ mn _ :: rest =>
      if mn = name then (true, rest) else verifyModeLoop name n rest
  | n + 1, _ :: rest => verifyModeLoop name (n + 1) rest

/-! ## Command dispatcher -/

/-- `set_mode`: guard on `is_connected` and `self.connection`; resolve
the mode name through `mode_mapping()` (unknown name: `False`, nothing
sent); send the mode-set request; poll heartbeats (10 s) until the
reported mode matches, else `False`. -/
def setMode (s : Client) (name : String) : Bool × Client × List Action :=
  match s.connection, s.connected with
  | some conn, true =>
      match List.lookup name conn.modeTable with
      | none => (false, s, [])
      | some modeId =>
          let r := pollModeLoop name conn.inbox
          (r.1, { s with connection := some { conn with inbox := r.2 } },
           [Action.setModeReq modeId])
  | _, _ => (false, s, [])

/-- `emergency_stop`: guard on `is_connected` and `self.connection`, then
`set_mode('RTL')` and return its boolean. -/
def emergencyStop (s : Client) : Bool × Client × List Action :=
  match s.connection, s.connected with
  | some _, true => setMode s "RTL"
  | _, _ => (false, s, [])

/-- `disconnect`: clear `_running` and `_connected`, join the telemetry
thread, and close-and-null the transport only when one is present;
returns `True` (exceptions from `close` are not modelled). -/
def disconnect (s : Client) : Bool × Client × List Action :=
  let s1 : Client := { s with running := false, connected := false, threadAlive := false }
  match s1.connection with
  | some _ => (true, { s1 with connection := none }, [Action.closeTransport])
  | none => (true, s1, [])

/-- `connect`: open the transport (`none` models a raised open failure,
caught by the except-block), then block on `wait_heartbeat(timeout=10)`
(`none` models the timeout, which raises `ConnectionError`, also caught).
On success the heartbeat's source system/component ids are cached,
`last_heartbeat` is stamped and `start_telemetry_thread` runs (a no-op
when a live thread already exists). -/
def connect (s : Client) (openResult : Option Transport)
    (hb : Option (Nat × Nat)) (now : Nat) : Bool × Client × List Action :=
  match openResult with
  | none => (false, { s with connected := false }, [])
  | some conn =>
      match hb with
      | none => (false, { s with connection := some conn, connected := false }, [])
      | some (sid, cid) =>
          if s.threadAlive then
            (true,
             { s with
                 connection := some conn
                 connected := true
                 systemId := sid, componentId := cid, lastHeartbeat := now },
             [])
          else
            (true,
             { s with
                 connection := some conn
                 connected := true
                 systemId := sid, componentId := cid, lastHeartbeat := now
                 running := true, threadAlive := true },
             [Action.startTelemetryThread])

/-! ## Flight sequencer -/

/-- Steps 5–9 of `autonomous_takeoff`: the inline 1-item mission upload
(clear, clear-ack wait, count(1), request-0 wait, takeoff item at the
current position, final-ack wait).  Returns success, the unconsumed
trace, and the messages sent. -/
def uploadTakeoffMission (lat lon alt : ℚ) (inbox : List MavMsg) :
    Bool × List MavMsg × List Action :=
  let clear := waitClearAck inbox
  if clear.1 = false then (false, clear.2, [Action.missionClearAll])
  else
    let req := waitReq0 clear.2
    if req.1 = false then
      (false, req.2, [Action.missionClearAll, Action.missionCount 1])
    else
      let item := Action.missionItemInt 0 MAV_FRAME_GLOBAL_RELATIVE_ALT
        MAV_CMD_NAV_TAKEOFF 1 1 0 0 0 0
        (pyInt (lat * 10000000)) (pyInt (lon * 10000000)) alt
      let ack := waitFinalAck req.2
      (ack.1, ack.2, [Action.missionClearAll, Action.missionCount 1, item])

/-- `autonomous_takeoff` after the connection guard, over the transport's
mode table and message stream: GUIDED, arm, arm-confirmation, location,
1-item mission upload, AUTO, AUTO verification.  Command sends are
assumed to succeed (a send failure would return `False` even earlier). -/
def takeoffBody (tbl : List (String × Nat)) (alt : ℚ) (inbox : List MavMsg) :
    Bool × List MavMsg × List Action :=
  match List.lookup "GUIDED" tbl with
  | none => (false, inbox, [])
  | some gid =>
      let m1 := pollModeLoop "GUIDED" inbox
      if m1.1 = false then (false, m1.2, [Action.setModeReq gid])
      else
        let acts2 := [Action.setModeReq gid,
          Action.commandLong MAV_CMD_COMPONENT_ARM_DISARM 1 0 0 0 0 0 0]
        match armWait m1.2 with
        | none => (false, [], acts2)
        | some r2 =>
            match getLocationLoop r2 with
            | none => (false, [], acts2)
            | some ((la, lo), r3) =>
                let up := uploadTakeoffMission ((la : ℚ) / 10000000)
                  ((lo : ℚ) / 10000000) alt r3
                if up.1 = false then (false, up.2.1, acts2 ++ up.2.2)
                else
                  match List.lookup "AUTO" tbl with
                  | none => (false, up.2.1, acts2 ++ up.2.2)
                  | some aid =>
                      let m2 := pollModeLoop "AUTO" up.2.1
                      let acts3 := acts2 ++ up.2.2 ++ [Action.setModeReq aid]
                      if m2.1 = false then (false, m2.2, acts3)
                      else
                        let v := verifyModeLoop "AUTO" 10 m2.2
                        (v.1, v.2, acts3)

/-- `autonomous_takeoff`: connection guard, then `takeoffBody` on the
transport. -/
def autonomousTakeoff (s : Client) (alt : ℚ) : Bool × Client × List Action :=
  match s.connection, s.connected with
  | some conn, true =>
      let r := takeoffBody conn.modeTable alt conn.inbox
      (r.1, { s with connection := some { conn with inbox := r.2.1 } }, r.2.2)
  | _, _ => (false, s, [])

/-- `autonomous_land` after the connection guard: clear-all and count(3)
(with sleeps, no ack wait), the three mission items (takeoff-in-place at
`currentAlt`, offset approach waypoint at `cruiseAlt`, land item), a
single logged-only MISSION_REQUEST wait after items 0 and 1, a single
logged-only MISSION_ACK wait whose status is never inspected, then
`set_mode('AUTO')` whose boolean is the result. -/
def landBody (tbl : List (String × Nat)) (lon lat currentAlt cruiseAlt : ℚ)
    (inbox : List MavMsg) : Bool × List MavMsg × List Action :=
  let item0 := Action.missionItemInt 0 MAV_FRAME_GLOBAL_RELATIVE_ALT
    MAV_CMD_NAV_TAKEOFF 1 1 0 0 0 0
    (pyInt (lat * 10000000)) (pyInt (lon * 10000000)) currentAlt
  let r1 := recvRequestOnce inbox
  let item1 := Action.missionItemInt 1 MAV_FRAME_GLOBAL_RELATIVE_ALT
    MAV_CMD_NAV_WAYPOINT 0 1 0 0 0 0
    (pyInt ((lat + 0.0005) * 10000000)) (pyInt ((lon + 0.0005) * 10000000)) cruiseAlt
  let r2 := recvRequestOnce r1
  let item2 := Action.missionItemInt 2 MAV_FRAME_GLOBAL_RELATIVE_ALT
    MAV_CMD_NAV_LAND 0 1 0 0 0 0
    (pyInt (lat * 10000000)) (pyInt (lon * 10000000)) 0
  let r3 := recvAckOnce r2
  let sent := [Action.missionClearAll, Action.missionCount 3, item0, item1, item2]
  match List.lookup "AUTO" tbl with
  | none => (false, r3, sent)
  | some aid =>
      let m := pollModeLoop "AUTO" r3
      (m.1, m.2, sent ++ [Action.setModeReq aid])

/-- `autonomous_land`: connection guard, then `landBody`. -/
def autonomousLand (s : Client) (lon lat currentAlt cruiseAlt : ℚ) :
    Bool × Client × List Action :=
  match s.connection, s.connected with
  | some conn, true =>
      let r := landBody conn.modeTable lon lat currentAlt cruiseAlt conn.inbox
      (r.1, { s with connection := some { conn with inbox := r.2.1 } }, r.2.2)
  | _, _ => (false, s, [])

/-! ## Predicates used in the claim statements -/

/-- A heartbeat whose `base_mode` has the armed flag set. -/
def isArmedHeartbeat : MavMsg → Bool
  | .heartbeat bm _ _ => (bm &&& MAV_MODE_FLAG_SAFETY_ARMED) != 0
  | _ => false

/-- Any MISSION_ACK, regardless of status. -/
def isAckMsg : MavMsg → Bool
  | .missionAck _ => true
  | _ => false

/-- Some heartbeat in the trace reports mode `name`. -/
def heartbeatReports (name : String) (l : List MavMsg) : Prop :=
  ∃ bm sn, MavMsg.heartbeat bm name sn ∈ l

/-! ## Spec-modelled definitions -/

/-- Modelled from the spec: `SequenceResult`, a success/failure outcome
plus a human-readable stage label, which the spec says every
FlightSequencer procedure returns.  No such type exists in the source:
the three procedures are annotated `-> bool` and their callers
(test_autonomous_operations.py) branch on a bare boolean. -/
structure SequenceResult where
  success : Bool
  stage : String
deriving DecidableEq

/-- Modelled from the spec: the `WaypointNavigator` state of §4.6 —
ordered waypoint list, current index, reach threshold, previous
distance-to-target for overshoot detection.  The source has no such
component (`UAVPlane.fly_waypoints` is a simplified demo that only
switches to AUTO mode); distances are stored squared so the update stays
executable over ℚ. -/
structure WaypointNav where
  waypoints : List (ℚ × ℚ × ℚ)
  index : Nat
  threshold : ℚ
  prevDist2 : Option ℚ
deriving DecidableEq

/-- Squared 3-D Euclidean distance (lat/lon as planar degrees plus
altitude). -/
def dist2 (a b : ℚ × ℚ × ℚ) : ℚ :=
  (a.1 - b.1) ^ 2 + (a.2.1 - b.2.1) ^ 2 + (a.2.2 - b.2.2) ^ 2

/-- Modelled from the spec: `update(currentPosition)` of §4.6.  Computes
the distance to the current target, advances the index when the distance
is within the threshold or has increased relative to the previous sample
(overshoot heuristic, comparisons done on squared distances), and
returns the new current target, or `none` once all waypoints are
consumed. -/
def navUpdate (nav : WaypointNav) (pos : ℚ × ℚ × ℚ) :
    Option (ℚ × ℚ × ℚ) × WaypointNav :=
  match nav.waypoints[nav.index]? with
  | none => (none, nav)
  | some target =>
      let d2 := dist2 pos target
      let overshoot := match nav.prevDist2 with
        | some p => decide (p < d2)
        | none => false
      if d2 ≤ nav.threshold ^ 2 ∨ overshoot = true then
        let nav' : WaypointNav := { nav with index := nav.index + 1, prevDist2 := none }
        (nav'.waypoints[nav'.index]?, nav')
      else
        (some target, { nav with prevDist2 := some d2 })

/-! ## Concrete fixtures used by witnesses and counterexamples -/

/-- An ArduPlane-style mode table. -/
def tblStd : List (String × Nat) := [("GUIDED", 15), ("AUTO", 10), ("RTL", 11)]

/-- A connected client over `tblStd` whose link will deliver `inbox`. -/
def mkClient (inbox : List MavMsg) : Client :=
  { connected := true, running := true, threadAlive := true, lastHeartbeat := 0
    systemId := 1, componentId := 1
    connection := some { modeTable := tblStd, inbox := inbox } }

/-- A link trace on which every step of `autonomous_takeoff` succeeds:
GUIDED heartbeat, armed heartbeat, a position, the clear-ack, the request
for item 0, the final accepted ack, and two AUTO heartbeats (one consumed
by `set_mode('AUTO')`, one by the verification loop). -/
def traceSuccess : List MavMsg :=
  [.heartbeat 0 "GUIDED" "ACTIVE", .heartbeat 128 "GUIDED" "ACTIVE",
   .globalPositionInt 0 0 0 0, .missionAck 0, .missionRequest 0, .missionAck 0,
   .heartbeat 0 "AUTO" "ACTIVE", .heartbeat 0 "AUTO" "ACTIVE"]

end UAVClient

namespace UAVClient

/-! ## Helper lemmas about the receive loops -/

theorem pollModeLoop_mem (name : String) (l : List MavMsg) (m : MavMsg)
    (h : m ∈ (pollModeLoop name l).2) : m ∈ l := by
  induction l with
  | nil => simp [pollModeLoop] at h
  | cons x rest ih =>
      cases x with
      | heartbeat bm mn sn =>
          simp only [pollModeLoop] at h
          split at h
          · exact List.mem_cons_of_mem _ h
          · exact List.mem_cons_of_mem _ (ih h)
      | missionAck k =>
          exact List.mem_cons_of_mem _ (ih (by simpa [pollModeLoop] using h))
      | missionRequest sq =>
          exact List.mem_cons_of_mem _ (ih (by simpa [pollModeLoop] using h))
      | globalPositionInt la lo al hd =>
          exact List.mem_cons_of_mem _ (ih (by simpa [pollModeLoop] using h))
      | attitude r p y =>
          exact List.mem_cons_of_mem _ (ih (by simpa [pollModeLoop] using h))
      | vfrHud a g th =>
          exact List.mem_cons_of_mem _ (ih (by simpa [pollModeLoop] using h))
      | sysStatus br vb =>
          exact List.mem_cons_of_mem _ (ih (by simpa [pollModeLoop] using h))
      | gpsRawInt fx sa =>
          exact List.mem_cons_of_mem _ (ih (by simpa [pollModeLoop] using h))

theorem armWait_eq_none (l : List MavMsg)
    (h : ∀ m ∈ l, isArmedHeartbeat m = false) : armWait l = none := by
  induction l with
  | nil => rfl
  | cons x rest ih =>
      have hrest : ∀ m ∈ rest, isArmedHeartbeat m = false :=
        fun m hm => h m (List.mem_cons_of_mem _ hm)
      have hx := h x (List.mem_cons_self x rest)
      cases x with
      | heartbeat bm mn sn =>
          simp only [isArmedHeartbeat] at hx
          simp only [armWait, hx]
          exact ih hrest
      | missionAck k => simpa only [armWait] using ih hrest
      | missionRequest sq => simpa only [armWait] using ih hrest
      | globalPositionInt la lo al hd => simpa only [armWait] using ih hrest
      | attitude r p y => simpa only [armWait] using ih hrest
      | vfrHud a g th => simpa only [armWait] using ih hrest
      | sysStatus br vb => simpa only [armWait] using ih hrest
      | gpsRawInt fx sa => simpa only [armWait] using ih hrest

theorem waitClearAck_cons_not_ack (x : MavMsg) (rest : List MavMsg)
    (hx : isAckMsg x = false) : waitClearAck (x :: rest) = waitClearAck rest := by
  cases x <;> simp_all [waitClearAck, isAckMsg]

theorem waitFinalAck_cons_not_ack (x : MavMsg) (rest : List MavMsg)
    (hx : isAckMsg x = false) : waitFinalAck (x :: rest) = waitFinalAck rest := by
  cases x <;> simp_all [waitFinalAck, isAckMsg]

theorem waitReq0_cons_not_req0 (x : MavMsg) (rest : List MavMsg)
    (hx : x ≠ MavMsg.missionRequest 0) : waitReq0 (x :: rest) = waitReq0 rest := by
  cases x
  case missionRequest k =>
      have hk : k ≠ 0 := fun e => hx (by rw [e])
      simp [waitReq0, hk]
  all_goals simp [waitReq0]

theorem waitClearAck_append (t r : List MavMsg)
    (ht : ∀ m ∈ t, isAckMsg m = false) :
    waitClearAck (t ++ MavMsg.missionAck MAV_MISSION_ACCEPTED :: r) = (true, r) := by
  induction t with
  | nil => simp [waitClearAck]
  | cons x rest ih =>
      rw [List.cons_append, waitClearAck_cons_not_ack x _ (ht x (List.mem_cons_self _ _))]
      exact ih fun m hm => ht m (List.mem_cons_of_mem _ hm)

theorem waitFinalAck_append (t r : List MavMsg)
    (ht : ∀ m ∈ t, isAckMsg m = false) :
    waitFinalAck (t ++ MavMsg.missionAck MAV_MISSION_ACCEPTED :: r) = (true, r) := by
  induction t with
  | nil => simp [waitFinalAck]
  | cons x rest ih =>
      rw [List.cons_append, waitFinalAck_cons_not_ack x _ (ht x (List.mem_cons_self _ _))]
      exact ih fun m hm => ht m (List.mem_cons_of_mem _ hm)

theorem waitReq0_append (t r : List MavMsg)
    (ht : ∀ m ∈ t, m ≠ MavMsg.missionRequest 0) :
    waitReq0 (t ++ MavMsg.missionRequest 0 :: r) = (true, r) := by
  induction t with
  | nil => simp [waitReq0]
  | cons x rest ih =>
      rw [List.cons_append, waitReq0_cons_not_req0 x _ (ht x (List.mem_cons_self _ _))]
      exact ih fun m hm => ht m (List.mem_cons_of_mem _ hm)

theorem waitClearAck_true (l : List MavMsg) (r : List MavMsg)
    (h : waitClearAck l = (true, r)) :
    (r = [] ∧ ∀ m ∈ l, isAckMsg m = false) ∨
    ∃ t, l = t ++ MavMsg.missionAck MAV_MISSION_ACCEPTED :: r ∧
      ∀ m ∈ t, isAckMsg m = false := by
  induction l generalizing r with
  | nil =>
      simp only [waitClearAck, Prod.mk.injEq, true_and] at h
      exact Or.inl ⟨h.symm, by simp⟩
  | cons x rest ih =>
      cases hb : isAckMsg x with
      | false =>
          rw [waitClearAck_cons_not_ack x rest hb] at h
          rcases ih r h with ⟨hr, hall⟩ | ⟨t, heq, hfree⟩
          · refine Or.inl ⟨hr, fun m hm => ?_⟩
            rcases List.mem_cons.mp hm with rfl | hm'
            · exact hb
            · exact hall m hm'
          · refine Or.inr ⟨x :: t, by rw [heq, List.cons_append], fun m hm => ?_⟩
            rcases List.mem_cons.mp hm with rfl | hm'
            · exact hb
            · exact hfree m hm'
      | true =>
          cases x
          case missionAck k =>
              simp only [waitClearAck] at h
              by_cases hk : k = MAV_MISSION_ACCEPTED
              · subst hk
                simp at h
                exact Or.inr ⟨[], by simp [h], by simp⟩
              · simp [hk] at h
          all_goals simp [isAckMsg] at hb

theorem waitFinalAck_true (l : List MavMsg) (r : List MavMsg)
    (h : waitFinalAck l = (true, r)) :
    ∃ t, l = t ++ MavMsg.missionAck MAV_MISSION_ACCEPTED :: r ∧
      ∀ m ∈ t, isAckMsg m = false := by
  induction l generalizing r with
  | nil => simp [waitFinalAck] at h
  | cons x rest ih =>
      cases hb : isAckMsg x with
      | false =>
          rw [waitFinalAck_cons_not_ack x rest hb] at h
          obtain ⟨t, heq, hfree⟩ := ih r h
          refine ⟨x :: t, by rw [heq, List.cons_append], fun m hm => ?_⟩
          rcases List.mem_cons.mp hm with rfl | hm'
          · exact hb
          · exact hfree m hm'
      | true =>
          cases x
          case missionAck k =>
              simp only [waitFinalAck] at h
              by_cases hk : k = MAV_MISSION_ACCEPTED
              · subst hk
                simp at h
                exact ⟨[], by simp [h], by simp⟩
              · simp [hk] at h
          all_goals simp [isAckMsg] at hb

theorem waitReq0_true (l : List MavMsg) (r : List MavMsg)
    (h : waitReq0 l = (true, r)) :
    ∃ t, l = t ++ MavMsg.missionRequest 0 :: r ∧
      ∀ m ∈ t, m ≠ MavMsg.missionRequest 0 := by
  induction l generalizing r with
  | nil => simp [waitReq0] at h
  | cons x rest ih =>
      by_cases hx : x = MavMsg.missionRequest 0
      · subst hx
        simp only [waitReq0] at h
        simp at h
        exact ⟨[], by simp [h], by simp⟩
      · rw [waitReq0_cons_not_req0 x rest hx] at h
        obtain ⟨t, heq, hfree⟩ := ih r h
        refine ⟨x :: t, by rw [heq, List.cons_append], fun m hm => ?_⟩
        rcases List.mem_cons.mp hm with rfl | hm'
        · exact hx
        · exact hfree m hm'

theorem pollModeLoop_true_iff (name : String) (l : List MavMsg) :
    (pollModeLoop name l).1 = true ↔ heartbeatReports name l := by
  induction l with
  | nil => simp [pollModeLoop, heartbeatReports]
  | cons x rest ih =>
      cases x
      case heartbeat bm mn sn =>
          by_cases hm : mn = name
          · subst hm
            exact iff_of_true (by simp [pollModeLoop])
              ⟨bm, sn, List.mem_cons_self _ _⟩
          · rw [pollModeLoop, if_neg hm, ih]
            constructor
            · rintro ⟨bm', sn', hmem⟩
              exact ⟨bm', sn', List.mem_cons_of_mem _ hmem⟩
            · rintro ⟨bm', sn', hmem⟩
              rcases List.mem_cons.mp hmem with heq | hmem'
              · injection heq with h1 h2 h3
                exact absurd h2.symm hm
              · exact ⟨bm', sn', hmem'⟩
      all_goals (
        simp only [pollModeLoop]
        rw [ih]
        constructor
        · rintro ⟨bm', sn', hmem⟩
          exact ⟨bm', sn', List.mem_cons_of_mem _ hmem⟩
        · rintro ⟨bm', sn', hmem⟩
          rcases List.mem_cons.mp hmem with heq | hmem'
          · exact MavMsg.noConfusion heq
          · exact ⟨bm', sn', hmem'⟩)

theorem dist2_nonneg (a b : ℚ × ℚ × ℚ) : 0 ≤ dist2 a b := by
  unfold dist2
  positivity

/-! ## Claim theorems -/

/-- C1 (counterexample): on a link that delivers no message at all — in
particular the final mission-ack is missing and no mission-item-request
is ever received, so the upload handshake fails — `autonomous_land` still
issues `setMode("AUTO")` (the AUTO mode-set request, mode id 10 in the
fixture table, is among the sent messages), contradicting the claim that
the procedure aborts without issuing it. -/
theorem claim_C1_counterexample :
    clientInbox (mkClient []) = [] ∧
    Action.setModeReq 10 ∈ (autonomousLand (mkClient []) 0 0 30 50).2.2 := by
  exact ⟨rfl, by decide⟩

/-- C1 (amended): `autonomous_land` never aborts on a failed upload
handshake.  For every connected client and every received-message trace,
whatever mission-acks or mission-item-requests are missing or carry a
non-accepted status, it sends the clear-all, the count, all three mission
items, and then the AUTO mode-set request (whenever "AUTO" resolves in
the mode table); only a transport-level send failure (not modelled, it
returns even earlier) can abort before `setMode("AUTO")`. -/
theorem claim_C1_land_always_sets_auto (s : Client) (conn : Transport) (aid : Nat)
    (lon lat currentAlt cruiseAlt : ℚ)
    (hconn : s.connection = some conn) (hc : s.connected = true)
    (haid : List.lookup "AUTO" conn.modeTable = some aid) :
    (autonomousLand s lon lat currentAlt cruiseAlt).2.2 =
      [Action.missionClearAll, Action.missionCount 3,
       Action.missionItemInt 0 MAV_FRAME_GLOBAL_RELATIVE_ALT MAV_CMD_NAV_TAKEOFF 1 1
         0 0 0 0 (pyInt (lat * 10000000)) (pyInt (lon * 10000000)) currentAlt,
       Action.missionItemInt 1 MAV_FRAME_GLOBAL_RELATIVE_ALT MAV_CMD_NAV_WAYPOINT 0 1
         0 0 0 0 (pyInt ((lat + 0.0005) * 10000000)) (pyInt ((lon + 0.0005) * 10000000)) cruiseAlt,
       Action.missionItemInt 2 MAV_FRAME_GLOBAL_RELATIVE_ALT MAV_CMD_NAV_LAND 0 1
         0 0 0 0 (pyInt (lat * 10000000)) (pyInt (lon * 10000000)) 0,
       Action.setModeReq aid] := by
  simp [autonomousLand, landBody, hconn, hc, haid]

/-- C1 (witness): the amended theorem applied to the concrete fixture
client whose link delivers nothing. -/
theorem claim_C1_witness :
    (autonomousLand (mkClient []) 0 0 30 50).2.2 =
      [Action.missionClearAll, Action.missionCount 3,
       Action.missionItemInt 0 MAV_FRAME_GLOBAL_RELATIVE_ALT MAV_CMD_NAV_TAKEOFF 1 1
         0 0 0 0 (pyInt (0 * 10000000)) (pyInt (0 * 10000000)) 30,
       Action.missionItemInt 1 MAV_FRAME_GLOBAL_RELATIVE_ALT MAV_CMD_NAV_WAYPOINT 0 1
         0 0 0 0 (pyInt ((0 + 0.0005) * 10000000)) (pyInt ((0 + 0.0005) * 10000000)) 50,
       Action.missionItemInt 2 MAV_FRAME_GLOBAL_RELATIVE_ALT MAV_CMD_NAV_LAND 0 1
         0 0 0 0 (pyInt (0 * 10000000)) (pyInt (0 * 10000000)) 0,
       Action.setModeReq 10] :=
  claim_C1_land_always_sets_auto (mkClient []) _ 10 0 0 30 50 rfl rfl (by decide)

/-- C2 (counterexample): the FlightSequencer procedures return a bare
boolean, not a `SequenceResult` with a stage label.  A takeoff run that
stalls at the mode step (the link never reports GUIDED) and one that
stalls at the arm step (GUIDED confirmed, but no armed heartbeat) return
the same value, so no reading of the result can assign the first run the
stage "mode" and the second the stage "arm". -/
theorem claim_C2_counterexample :
    ¬ ∃ toResult : Bool → SequenceResult,
      (toResult (autonomousTakeoff (mkClient [MavMsg.heartbeat 0 "STABILIZE" "ACTIVE"]) 50).1).stage
        = "mode" ∧
      (toResult (autonomousTakeoff (mkClient [MavMsg.heartbeat 0 "GUIDED" "ACTIVE"]) 50).1).stage
        = "arm" := by
  rintro ⟨f, h1, h2⟩
  have e1 : (autonomousTakeoff (mkClient [MavMsg.heartbeat 0 "STABILIZE" "ACTIVE"]) 50).1 = false :=
    by decide
  have e2 : (autonomousTakeoff (mkClient [MavMsg.heartbeat 0 "GUIDED" "ACTIVE"]) 50).1 = false :=
    by decide
  rw [e1] at h1
  rw [e2] at h2
  rw [h1] at h2
  exact absurd h2 (by decide)

/-- C2 (amended): every FlightSequencer procedure (`autonomous_takeoff`,
`autonomous_land`, `emergency_stop`) returns a bare boolean success flag;
runs stalling at different stages (mode step vs. arm step) both return
`false` and are indistinguishable from the return value, a fully
successful run returns `true`, and the stage information exists only in
log output. -/
theorem claim_C2_bare_boolean :
    (autonomousTakeoff (mkClient [MavMsg.heartbeat 0 "STABILIZE" "ACTIVE"]) 50).1 = false ∧
    (autonomousTakeoff (mkClient [MavMsg.heartbeat 0 "GUIDED" "ACTIVE"]) 50).1 = false ∧
    (autonomousTakeoff (mkClient traceSuccess) 50).1 = true ∧
    (autonomousLand (mkClient []) 0 0 30 50).1 = false ∧
    (emergencyStop (mkClient [MavMsg.heartbeat 0 "RTL" "ACTIVE"])).1 = true := by
  decide

/-- C5: each telemetry message type updates exactly the fields the spec
assigns to it and nothing else: a HEARTBEAT sets armed / flight-mode /
system-status / last-heartbeat, an ATTITUDE only roll/pitch/yaw, a
GLOBAL_POSITION_INT only lat/lon/altitude/heading, a VFR_HUD only
airspeed/groundspeed/throttle, a SYS_STATUS only the battery fields, a
GPS_RAW_INT only fix-type/satellites, and messages without a registered
handler (MISSION_ACK, MISSION_REQUEST) leave the store untouched; every
field not listed keeps its previous value (record-update equalities). -/
theorem claim_C5_handler_frame (t : Telemetry) (now bm : Nat) (mn sn : String)
    (k sq : Nat) (la lo al hd : Int) (r p y a g : ℚ) (th : Nat) (br : Int)
    (vb fx sa : Nat) :
    processMessage now t (.heartbeat bm mn sn) =
      { t with armed := (bm &&& MAV_MODE_FLAG_SAFETY_ARMED) != 0
               flightMode := mn, systemStatus := sn, lastHeartbeat := now } ∧
    processMessage now t (.attitude r p y) =
      { t with roll := r, pitch := p, yaw := y } ∧
    processMessage now t (.globalPositionInt la lo al hd) =
      { t with lat := (la : ℚ) / 10000000, lon := (lo : ℚ) / 10000000
               altitude := (al : ℚ) / 1000, heading := (hd : ℚ) / 100 } ∧
    processMessage now t (.vfrHud a g th) =
      { t with airspeed := a, groundspeed := g, throttle := (th : ℚ) } ∧
    processMessage now t (.sysStatus br vb) =
      { t with batteryLevel := (br : ℚ), batteryVoltage := (vb : ℚ) / 1000 } ∧
    processMessage now t (.gpsRawInt fx sa) =
      { t with gpsFix := fx, satellites := sa } ∧
    processMessage now t (.missionAck k) = t ∧
    processMessage now t (.missionRequest sq) = t :=
  ⟨rfl, rfl, rfl, rfl, rfl, rfl, rfl, rfl⟩

/-- C7: `emergency_stop` is extensionally `set_mode("RTL")` — it returns
exactly that call's boolean and sends exactly its messages — and it never
inspects telemetry freshness: its outcome and the messages it sends are
unchanged under an arbitrary (arbitrarily stale) `last_heartbeat`
timestamp. -/
theorem claim_C7_emergency_stop (s : Client) (t : Nat) :
    emergencyStop s = setMode s "RTL" ∧
    (emergencyStop { s with lastHeartbeat := t }).1 = (emergencyStop s).1 ∧
    (emergencyStop { s with lastHeartbeat := t }).2.2 = (emergencyStop s).2.2 := by
  obtain ⟨c, r, th, lh, si, ci, conn⟩ := s
  cases conn with
  | none => cases c <;> simp [emergencyStop, setMode]
  | some tr =>
      cases c with
      | false => simp [emergencyStop, setMode]
      | true => cases h : List.lookup "RTL" tr.modeTable <;>
          simp [emergencyStop, setMode, h]

/-- C8: `disconnect` is idempotent.  After one call has cleared the flags
and released the transport, a second call returns `True`, performs no
action (in particular it does not close the transport again), and leaves
the client in exactly the same disconnected state. -/
theorem claim_C8_disconnect_idempotent (s : Client) :
    disconnect (disconnect s).2.1 = (true, (disconnect s).2.1, []) := by
  obtain ⟨c, r, th, lh, si, ci, conn⟩ := s
  cases conn <;> rfl

/-- C10: `connect` returns a boolean for every outcome (the embedding is
a total function: both the transport-open failure and the missing
heartbeat are caught by the source's except-block), it fails exactly when
the transport open fails or no heartbeat arrives within the timeout, and
on every failed attempt the client is left with `connected = false` and
no telemetry thread is started (no action at all is performed). -/
theorem claim_C10_connect_failure (s : Client) (o : Option Transport)
    (hb : Option (Nat × Nat)) (now : Nat) :
    ((connect s o hb now).1 = false ↔ o = none ∨ hb = none) ∧
    ((connect s o hb now).1 = false →
      (connect s o hb now).2.1.connected = false ∧
      Action.startTelemetryThread ∉ (connect s o hb now).2.2) := by
  cases o with
  | none => simp [connect]
  | some conn =>
      cases hb with
      | none => simp [connect]
      | some p =>
          obtain ⟨sid, cid⟩ := p
          by_cases hth : s.threadAlive <;> simp [connect, hth]

/-- C10 (witness): the failure clause applied to a concrete failed
attempt (transport open fails): the client ends disconnected and no
telemetry thread is started. -/
theorem claim_C10_witness :
    (connect (mkClient []) none none 0).2.1.connected = false ∧
    Action.startTelemetryThread ∉ (connect (mkClient []) none none 0).2.2 :=
  (claim_C10_connect_failure (mkClient []) none none 0).2 (by decide)

theorem takeoffBody_no_armed (tbl : List (String × Nat)) (alt : ℚ)
    (inbox : List MavMsg) (h : ∀ m ∈ inbox, isArmedHeartbeat m = false) :
    (takeoffBody tbl alt inbox).1 = false ∧
    ∀ a ∈ (takeoffBody tbl alt inbox).2.2, isMissionAction a = false := by
  cases hg : List.lookup "GUIDED" tbl with
  | none => simp [takeoffBody, hg]
  | some gid =>
      rcases hm : pollModeLoop "GUIDED" inbox with ⟨mb, mr⟩
      cases mb with
      | false => simp [takeoffBody, hg, hm, isMissionAction]
      | true =>
          have harm : armWait mr = none := armWait_eq_none mr fun m hmem =>
            h m (pollModeLoop_mem "GUIDED" inbox m (by rw [hm]; exact hmem))
          simp [takeoffBody, hg, hm, harm, isMissionAction]

/-- C3: in every run of `autonomous_takeoff` in which the link never
reports a heartbeat with the armed flag set — so the 30 s arm-confirmation
wait fails — the procedure returns failure and emits no mission-upload
message: the sent messages contain no mission-clear-all, mission-count or
mission-item. -/
theorem claim_C3_failed_arm_no_mission (s : Client) (alt : ℚ)
    (h : ∀ m ∈ clientInbox s, isArmedHeartbeat m = false) :
    (autonomousTakeoff s alt).1 = false ∧
    ∀ a ∈ (autonomousTakeoff s alt).2.2, isMissionAction a = false := by
  obtain ⟨c, r, th, lh, si, ci, conn⟩ := s
  cases conn with
  | none => simp [autonomousTakeoff]
  | some tr =>
      cases c with
      | false => simp [autonomousTakeoff]
      | true =>
          have hb := takeoffBody_no_armed tr.modeTable alt tr.inbox h
          exact ⟨hb.1, hb.2⟩

/-- C3 (witness): a concrete run whose link confirms GUIDED mode but
never reports an armed heartbeat: the takeoff fails and sends no
mission-upload message. -/
theorem claim_C3_witness :
    (autonomousTakeoff (mkClient [MavMsg.heartbeat 0 "GUIDED" "ACTIVE"]) 50).1 = false ∧
    ∀ a ∈ (autonomousTakeoff (mkClient [MavMsg.heartbeat 0 "GUIDED" "ACTIVE"]) 50).2.2,
      isMissionAction a = false :=
  claim_C3_failed_arm_no_mission (mkClient [MavMsg.heartbeat 0 "GUIDED" "ACTIVE"]) 50
    (by decide)

/-- C4 (counterexample): a trace that delivers exactly a
mission-item-request for index 0 followed by an accepted mission-ack —
the claim's success condition — nevertheless makes the 1-item upload
fail: the clear-all ack wait consumes the accepted ack (discarding the
request scanned past on the way), and the request wait then times out. -/
theorem claim_C4_counterexample :
    (uploadTakeoffMission 0 0 50
      [MavMsg.missionRequest 0, MavMsg.missionAck MAV_MISSION_ACCEPTED]).1 = false := by
  decide

/-- C4 (amended): the takeoff's 1-item mission upload succeeds if and
only if the received sequence decomposes as: an accepted mission-ack
preceded by no other mission-ack (consumed as the clear-all
acknowledgement), then a mission-item-request for index 0 (requests for
other indices may precede it), then an accepted mission-ack preceded by
no other mission-ack; every other sequence — a rejected ack at either ack
wait, no request for index 0, or a missing message — fails the upload
(and `autonomous_takeoff`, which runs this upload inline, then returns
failure). -/
theorem claim_C4_upload_characterization (lat lon alt : ℚ) (inbox : List MavMsg) :
    (uploadTakeoffMission lat lon alt inbox).1 = true ↔
    ∃ t1 t2 t3 t4,
      inbox = t1 ++ MavMsg.missionAck MAV_MISSION_ACCEPTED ::
        (t2 ++ MavMsg.missionRequest 0 ::
          (t3 ++ MavMsg.missionAck MAV_MISSION_ACCEPTED :: t4)) ∧
      (∀ m ∈ t1, isAckMsg m = false) ∧
      (∀ m ∈ t2, m ≠ MavMsg.missionRequest 0) ∧
      (∀ m ∈ t3, isAckMsg m = false) := by
  constructor
  · intro h
    simp only [uploadTakeoffMission] at h
    rcases hc : waitClearAck inbox with ⟨cb, cr⟩
    rw [hc] at h
    cases cb with
    | false => simp at h
    | true =>
        simp only at h
        rcases hq : waitReq0 cr with ⟨qb, qr⟩
        cases qb with
        | false => simp [hq] at h
        | true =>
            rcases ha : waitFinalAck qr with ⟨ab, ar⟩
            simp [hq, ha] at h
            rw [h] at ha
            rcases waitClearAck_true inbox cr hc with ⟨hcr, hall⟩ | ⟨t1, he1, h1⟩
            · subst hcr
              simp [waitReq0] at hq
            · rcases waitReq0_true cr qr hq with ⟨t2, he2, h2⟩
              rcases waitFinalAck_true qr ar ha with ⟨t3, he3, h3⟩
              exact ⟨t1, t2, t3, ar, by rw [he1, he2, he3], h1, h2, h3⟩
  · rintro ⟨t1, t2, t3, t4, rfl, h1, h2, h3⟩
    simp [uploadTakeoffMission, waitClearAck_append _ _ h1, waitReq0_append _ _ h2,
      waitFinalAck_append _ _ h3]

/-- C4 (witness): the backward direction of the characterization at the
canonical successful trace (clear-ack, request 0, final ack). -/
theorem claim_C4_witness :
    (uploadTakeoffMission 0 0 50
      [MavMsg.missionAck MAV_MISSION_ACCEPTED, MavMsg.missionRequest 0,
       MavMsg.missionAck MAV_MISSION_ACCEPTED]).1 = true :=
  (claim_C4_upload_characterization 0 0 50 _).mpr
    ⟨[], [], [], [], rfl, by simp, by simp, by simp⟩

/-- C6: `set_mode(modeName)` resolves the mode name through the link's
mode table — an unknown name returns `false` with nothing sent — and
otherwise sends exactly one mode-set request with the resolved numeric
id, then polls incoming heartbeats (10 s budget, modelled as the rest of
the trace): it returns `true` exactly when some heartbeat reports the
requested mode, and `false` when the link's heartbeats run out without a
match. -/
theorem claim_C6_set_mode (s : Client) (conn : Transport) (name : String)
    (hconn : s.connection = some conn) (hc : s.connected = true) :
    (List.lookup name conn.modeTable = none → setMode s name = (false, s, [])) ∧
    (∀ mid, List.lookup name conn.modeTable = some mid →
      (setMode s name).2.2 = [Action.setModeReq mid] ∧
      ((setMode s name).1 = true ↔ heartbeatReports name conn.inbox)) := by
  constructor
  · intro hnone
    simp [setMode, hconn, hc, hnone]
  · intro mid hmid
    have hpoll := pollModeLoop_true_iff name conn.inbox
    refine ⟨by simp [setMode, hconn, hc, hmid], ?_, ?_⟩
    · intro htrue
      exact hpoll.mp (by simpa [setMode, hconn, hc, hmid] using htrue)
    · intro hrep
      simpa [setMode, hconn, hc, hmid] using hpoll.mpr hrep

/-- C6 (witness): the theorem applied to a concrete connected client: for
mode "RTL" (id 11 in the fixture table) the mode-set request is sent and,
since the link reports an RTL heartbeat, the call returns `true`. -/
theorem claim_C6_witness :
    (setMode (mkClient [MavMsg.heartbeat 0 "RTL" "ACTIVE"]) "RTL").2.2 =
      [Action.setModeReq 11] ∧
    (setMode (mkClient [MavMsg.heartbeat 0 "RTL" "ACTIVE"]) "RTL").1 = true := by
  have h := (claim_C6_set_mode (mkClient [MavMsg.heartbeat 0 "RTL" "ACTIVE"])
    { modeTable := tblStd, inbox := [MavMsg.heartbeat 0 "RTL" "ACTIVE"] } "RTL"
    rfl rfl).2 11 (by decide)
  exact ⟨h.1, h.2.mpr ⟨0, "ACTIVE", List.mem_cons_self _ _⟩⟩

/-- C9: `WaypointNavigator.update` (modelled from the spec; the source
has no such component).  When the current index is past the waypoint
list, update returns null and changes nothing.  Otherwise it advances the
index exactly when the 3-D Euclidean distance from the current position
to the current target is within the reach threshold, or the distance
increased relative to the previous sample (overshoot heuristic); the
returned value is the (possibly new) current target, hence null once all
waypoints are consumed; when it does not advance it stores the squared
distance as the new previous sample and keeps the target. -/
theorem claim_C9_nav_update (nav : WaypointNav) (pos : ℚ × ℚ × ℚ)
    (hthr : 0 ≤ nav.threshold)
    (hprev : ∀ p, nav.prevDist2 = some p → 0 ≤ p) :
    (nav.waypoints[nav.index]? = none → navUpdate nav pos = (none, nav)) ∧
    (∀ target, nav.waypoints[nav.index]? = some target →
      (((navUpdate nav pos).2.index = nav.index + 1) ↔
        (Real.sqrt ((dist2 pos target : ℚ) : ℝ) ≤ (nav.threshold : ℝ) ∨
         ∃ p, nav.prevDist2 = some p ∧
           Real.sqrt ((p : ℚ) : ℝ) < Real.sqrt ((dist2 pos target : ℚ) : ℝ))) ∧
      ((navUpdate nav pos).1 =
        (navUpdate nav pos).2.waypoints[(navUpdate nav pos).2.index]?) ∧
      (¬ (dist2 pos target ≤ nav.threshold ^ 2 ∨
            ∃ p, nav.prevDist2 = some p ∧ p < dist2 pos target) →
        navUpdate nav pos =
          (some target, { nav with prevDist2 := some (dist2 pos target) }))) := by
  have hthr' : (0 : ℝ) ≤ (nav.threshold : ℝ) := by exact_mod_cast hthr
  constructor
  · intro hnone
    simp [navUpdate, hnone]
  · intro target htar
    have key1 : Real.sqrt ((dist2 pos target : ℚ) : ℝ) ≤ (nav.threshold : ℝ) ↔
        dist2 pos target ≤ nav.threshold ^ 2 := by
      rw [Real.sqrt_le_left hthr']
      constructor <;> intro hh <;> exact_mod_cast hh
    have keyM : ((match nav.prevDist2 with
        | some p => decide (p < dist2 pos target)
        | none => false) = true) ↔
        ∃ p, nav.prevDist2 = some p ∧ p < dist2 pos target := by
      cases hp : nav.prevDist2 with
      | none => simp
      | some p => simp
    have keyO : (∃ p, nav.prevDist2 = some p ∧
        Real.sqrt ((p : ℚ) : ℝ) < Real.sqrt ((dist2 pos target : ℚ) : ℝ)) ↔
        ∃ p, nav.prevDist2 = some p ∧ p < dist2 pos target := by
      constructor
      · rintro ⟨p, hp, hlt⟩
        refine ⟨p, hp, ?_⟩
        have h0 : (0 : ℝ) ≤ ((p : ℚ) : ℝ) := by exact_mod_cast hprev p hp
        exact_mod_cast (Real.sqrt_lt_sqrt_iff h0).mp hlt
      · rintro ⟨p, hp, hlt⟩
        refine ⟨p, hp, ?_⟩
        have h0 : (0 : ℝ) ≤ ((p : ℚ) : ℝ) := by exact_mod_cast hprev p hp
        exact (Real.sqrt_lt_sqrt_iff h0).mpr (by exact_mod_cast hlt)
    simp only [navUpdate, htar]
    split_ifs with hcond
    · refine ⟨?_, rfl, ?_⟩
      · refine iff_of_true rfl ?_
        rcases hcond with hc1 | hc2
        · exact Or.inl (key1.mpr hc1)
        · exact Or.inr (keyO.mpr (keyM.mp hc2))
      · intro hneg
        exact absurd (hcond.imp id keyM.mp) hneg
    · refine ⟨?_, htar.symm, fun _ => rfl⟩
      apply iff_of_false
      · show ¬(nav.index = nav.index + 1)
        omega
      · intro hs
        apply hcond
        rcases hs with h1 | h2
        · exact Or.inl (key1.mp h1)
        · exact Or.inr (keyM.mpr (keyO.mp h2))

/-- C9 (witness): the spec's own example — waypoints
`[(0,0,10),(1,0,10)]`, threshold 5, position `(0,0,10)`: the distance to
the first waypoint is 0 ≤ 5, so the update advances the index. -/
theorem claim_C9_witness :
    (navUpdate ⟨[((0 : ℚ), (0 : ℚ), (10 : ℚ)), (1, 0, 10)], 0, 5, none⟩
      (0, 0, 10)).2.index = 1 := by
  have h := claim_C9_nav_update
    ⟨[((0 : ℚ), (0 : ℚ), (10 : ℚ)), (1, 0, 10)], 0, 5, none⟩ (0, 0, 10)
    (by norm_num) (fun p hp => Option.noConfusion hp)
  refine ((h.2 ((0 : ℚ), (0 : ℚ), (10 : ℚ)) rfl).1).mpr (Or.inl ?_)
  have hz : dist2 ((0 : ℚ), (0 : ℚ), (10 : ℚ)) ((0 : ℚ), (0 : ℚ), (10 : ℚ)) = 0 := by
    norm_num [dist2]
  rw [hz]
  push_cast
  rw [Real.sqrt_zero]
  norm_num

end UAVClient
